import Mathlib

/-!
Verification of the Med_talks triage and retrieval subsystems.

Shallow embedding conventions:
* Python `str` values are modelled as `Text := List Char`, so substring,
  lowercase and strip operations are ordinary list operations.
* Python floats that only ever feed threshold comparisons are modelled as `ℚ`.
* Python exceptions are modelled with `Except Text α` (the payload is `str(e)`);
  a `try/except` wrapper becomes a `match` on the `Except` value.
* Calls that perform I/O (HTTP requests, the zero-shot classifier) are
  parameters of the embedded functions: an embedded function takes the outcome
  of each external call as an argument.
-/

/-- Python strings, modelled character-wise. -/
abbrev Text := List Char

/-- Conversion from a Lean string literal to the `Text` model. -/
def T (s : String) : Text := s.data

/-- Python `s.lower()`. -/
def toLowerT (t : Text) : Text := t.map Char.toLower

/-- Python `s.upper()`. -/
def toUpperT (t : Text) : Text := t.map Char.toUpper

/-- Python `s.strip()`: drop leading and trailing whitespace. -/
def trimT (t : Text) : Text :=
  ((t.dropWhile Char.isWhitespace).reverse.dropWhile Char.isWhitespace).reverse

/-- Python `needle in hay` on strings: substring membership. -/
def containsT (hay needle : Text) : Bool :=
  hay.tails.any fun t => needle.isPrefixOf t

/-- Python `s.capitalize()`: first character uppercased, rest lowercased. -/
def capitalizeT : Text → Text
  | [] => []
  | c :: rest => c.toUpper :: rest.map Char.toLower

/-! ## Person B triage pipeline (src/elaazaouzi_fadwa) -/

/-- Output of `ZeroShotClassifier.classify` (classifier.py): the top label and
its score.  The `all_scores` entry of the Python dict is never read by the
planner or the orchestrator and is omitted. -/
structure Classification where
  label : Text
  score : ℚ
deriving Repr, DecidableEq

/-- The `ActionPlan` pydantic model (plans.py). -/
structure ActionPlan where
  domain : Text
  intent : Text
  confidence : ℚ
  risk_level : Text
  needs_external_data : Bool
  llm_mode : Text
deriving Repr, DecidableEq

/-- The dict returned by `validate_input` (validators.py).  The Python function
returns dicts whose key set varies; `risk_level` is read downstream with
`.get`, hence an `Option`. -/
structure ValidationResult where
  valid : Bool
  risk_level : Option Text
  reason : Text
deriving Repr, DecidableEq

/-- The `dangerous_keywords` denylist of validators.py. -/
def dangerous_keywords : List Text :=
  [T "kill myself", T "suicide", T "self-harm", T "end my life",
   T "hurt myself", T "poison", T "overdose", T "harm myself"]

/-- `validate_input` (validators.py lines 1-44).  The first Python condition is
`not text or len(text.strip()) == 0`; the loop over `dangerous_keywords`
returns at the first keyword found in `text.lower()`, modelled with
`List.find?`. -/
def validate_input (text : Text) : ValidationResult :=
  if text.isEmpty || (trimT text).length == 0 then
    { valid := false, risk_level := none, reason := T "Input is empty" }
  else if (trimT text).length < 3 then
    { valid := false, risk_level := none, reason := T "Input is too short to analyze" }
  else
    match dangerous_keywords.find? (fun kw => containsT (toLowerT text) kw) with
    | some kw =>
        { valid := true, risk_level := some (T "high"),
          reason := T "Contains dangerous keyword: " ++ kw }
    | none =>
        { valid := true, risk_level := some (T "low"),
          reason := T "Input is valid and safe" }

/-- `compute_confidence` (confidence.py lines 7-16). -/
def compute_confidence (score : ℚ) : Text :=
  if score ≥ 0.75 then T "high"
  else if score ≥ 0.4 then T "medium"
  else T "low"

/-- `PersonBPlanner.create_plan` (planner.py lines 10-79). -/
def create_plan (classification : Classification) (confidence : Text) : ActionPlan :=
  let label := classification.label
  let score := classification.score
  if label == T "non-medical question" then
    { domain := T "non-medical", intent := T "general_question", confidence := score,
      risk_level := T "low", needs_external_data := false, llm_mode := T "direct" }
  else if confidence == T "low" then
    { domain := T "medical", intent := T "uncertain_medical_question", confidence := score,
      risk_level := T "medium", needs_external_data := true, llm_mode := T "refusal" }
  else if label == T "medical definition question" &&
      (confidence == T "medium" || confidence == T "high") then
    { domain := T "medical", intent := T "medical_definition", confidence := score,
      risk_level := T "low", needs_external_data := true, llm_mode := T "direct" }
  else if label == T "medical reasoning question" ||
      label == T "medical stepwise procedure question" ||
      label == T "medical multiple choice question" then
    { domain := T "medical", intent := T "medical_reasoning", confidence := score,
      risk_level := T "medium", needs_external_data := true, llm_mode := T "refusal" }
  else
    { domain := T "unknown", intent := T "unclassified", confidence := score,
      risk_level := T "medium", needs_external_data := true, llm_mode := T "refusal" }

/-- The plan returned by `classify_question` for invalid input. -/
def invalidPlan : ActionPlan :=
  { domain := T "invalid", intent := T "invalid_input", confidence := 0,
    risk_level := T "low", needs_external_data := false, llm_mode := T "refusal" }

/-- The plan returned by `classify_question` for safety-keyword input. -/
def dangerPlan : ActionPlan :=
  { domain := T "medical", intent := T "dangerous_or_sensitive", confidence := 1,
    risk_level := T "high", needs_external_data := false, llm_mode := T "refusal" }

/-- `PersonBOrchestrator.classify_question` (orchestrateur.py lines 17-48).
The zero-shot classifier is an external model; it is passed in as the function
`classify`, exactly as the pipeline consumes it (label and score of the top
class). -/
def classify_question (classify : Text → Classification) (question : Text) : ActionPlan :=
  let validation := validate_input question
  if !validation.valid then invalidPlan
  else if validation.risk_level == some (T "high") then dangerPlan
  else
    let classification := classify question
    let confidence := compute_confidence classification.score
    create_plan classification confidence

/-! ## Shared data model (src/models.py) and Python value model -/

/-- Python/JSON values as far as the retrieval layer inspects them:
`None`, numbers, strings, lists and string-keyed dicts. -/
inductive PyVal where
  | pnone : PyVal
  | num : ℚ → PyVal
  | str : Text → PyVal
  | list : List PyVal → PyVal
  | dict : List (Text × PyVal) → PyVal
deriving Repr

mutual

/-- Structural equality on `PyVal`, modelling Python `==` on JSON data. -/
def pyBeq : PyVal → PyVal → Bool
  | .pnone, .pnone => true
  | .num a, .num b => a == b
  | .str a, .str b => a == b
  | .list a, .list b => pyBeqList a b
  | .dict a, .dict b => pyBeqDict a b
  | _, _ => false

/-- Elementwise equality of Python lists. -/
def pyBeqList : List PyVal → List PyVal → Bool
  | [], [] => true
  | a :: as', b :: bs' => pyBeq a b && pyBeqList as' bs'
  | _, _ => false

/-- Entrywise equality of Python dicts (keys are kept in insertion order). -/
def pyBeqDict : List (Text × PyVal) → List (Text × PyVal) → Bool
  | [], [] => true
  | a :: as', b :: bs' => a.1 == b.1 && pyBeq a.2 b.2 && pyBeqDict as' bs'
  | _, _ => false

end

instance : BEq PyVal := ⟨pyBeq⟩

/-- Python truthiness of a value (`if x:`). -/
def pyTruthy : PyVal → Bool
  | .pnone => false
  | .num q => q != 0
  | .str s => !s.isEmpty
  | .list l => !l.isEmpty
  | .dict d => !d.isEmpty

/-- Python `str(v)`.  Only string payloads are rendered; the textual rendering
of numbers, lists and dicts is not modelled (no claim depends on it). -/
def pyToText : PyVal → Text
  | .str s => s
  | _ => []

/-- Python `key in v`: key membership for dicts, element membership for lists,
substring test for strings; a `TypeError` for the remaining types. -/
def pyIn (key : Text) : PyVal → Except Text Bool
  | .dict kvs => .ok (kvs.any fun kv => kv.1 == key)
  | .list xs => .ok (xs.any fun x => x == PyVal.str key)
  | .str s => .ok (containsT s key)
  | _ => .error (T "TypeError: argument is not iterable")

/-- Python `v[key]` with a string key: dict lookup (`KeyError` when absent),
`TypeError` on any other type. -/
def pySubscript (v : PyVal) (key : Text) : Except Text PyVal :=
  match v with
  | .dict kvs =>
      match kvs.find? (fun kv => kv.1 == key) with
      | some kv => .ok kv.2
      | none => .error (T "KeyError: " ++ key)
  | _ => .error (T "TypeError: object is not subscriptable")

/-- Python `v.get(key, default)`: only dicts have `.get`
(`AttributeError` otherwise). -/
def pyGet (v : PyVal) (key : Text) (dflt : PyVal) : Except Text PyVal :=
  match v with
  | .dict kvs =>
      match kvs.find? (fun kv => kv.1 == key) with
      | some kv => .ok kv.2
      | none => .ok dflt
  | _ => .error (T "AttributeError: object has no attribute get")

/-- Python `v[0]`: head of a list or string (`IndexError` when empty),
`TypeError`/`KeyError` on the remaining types. -/
def pyIndexZero : PyVal → Except Text PyVal
  | .list (x :: _) => .ok x
  | .list [] => .error (T "IndexError: list index out of range")
  | .str (c :: _) => .ok (.str [c])
  | .str [] => .error (T "IndexError: string index out of range")
  | _ => .error (T "TypeError: object is not subscriptable")

/-- Python `for x in v`: the sequence of iterates (list elements, string
characters as one-character strings, dict keys), `TypeError` otherwise. -/
def pyIterList : PyVal → Except Text (List PyVal)
  | .list l => .ok l
  | .str s => .ok (s.map fun c => PyVal.str [c])
  | .dict kvs => .ok (kvs.map fun kv => PyVal.str kv.1)
  | _ => .error (T "TypeError: object is not iterable")

/-- Python `v[:n]`: slicing for lists and strings, `TypeError` otherwise. -/
def pySliceTake (v : PyVal) (n : Nat) : Except Text PyVal :=
  match v with
  | .list l => .ok (.list (l.take n))
  | .str s => .ok (.str (s.take n))
  | _ => .error (T "TypeError: object is not subscriptable")

/-- The `APIResult` dataclass (models.py lines 6-24). -/
structure APIResult where
  source : Text
  title : Text
  content : Text
  url : Option Text
  confidence : ℚ
  metadata : List (Text × PyVal)
deriving Repr

/-- The `APIResponse` container (models.py lines 26-44).  The `timestamp`
field is wall-clock I/O (`datetime.now().isoformat()`) and is not read by any
covered code; it is omitted from the model. -/
structure APIResponse where
  query : Text
  results : List APIResult
  success : Bool
  errors : List Text
deriving Repr

/-- `APIResponse.__init__`: empty results and errors, `success = True`. -/
def APIResponse.init (query : Text) : APIResponse :=
  { query := query, results := [], success := true, errors := [] }

/-- `APIResponse.add_result`. -/
def APIResponse.add_result (r : APIResponse) (x : APIResult) : APIResponse :=
  { r with results := r.results ++ [x] }

/-- `APIResponse.add_error`: records the error and clears `success`. -/
def APIResponse.add_error (r : APIResponse) (e : Text) : APIResponse :=
  { r with errors := r.errors ++ [e], success := false }

/-- The envelopes reachable from construction through any sequence of
`add_result` and `add_error` calls. -/
inductive APIResponse.Reachable : APIResponse → Prop where
  | init : ∀ q, APIResponse.Reachable (APIResponse.init q)
  | addResult : ∀ r x, APIResponse.Reachable r → APIResponse.Reachable (r.add_result x)
  | addError : ∀ r e, APIResponse.Reachable r → APIResponse.Reachable (r.add_error e)

/-! ## Person C retrieval orchestrator (src/noussaiba_mdaghri/orchestrateur.py) -/

/-- The `medical_keywords` vocabulary of `PersonCOrchestrator._looks_medical`
(orchestrateur.py lines 168-176). -/
def medical_keywords : List Text :=
  [T "médicament", T "medicament", T "pillule", T "comprimé", T "traitement",
   T "symptôme", T "symptome", T "maladie", T "diagnostic", T "effet secondaire",
   T "dose", T "posologie", T "contre-indication", T "interaction",
   T "aspirin", T "aspirine", T "paracetamol", T "ibuprofène", T "ibuprofene",
   T "vaccin", T "cancer", T "diabète", T "diabete", T "cardiaque", T "foie",
   T "rein", T "poumon", T "cerveau", T "sang", T "tension", T "cholestérol",
   T "allergie", T "infection", T "virus", T "bactérie", T "bacterie"]

/-- `PersonCOrchestrator._looks_medical` (orchestrateur.py lines 163-179). -/
def looks_medical (question : Text) : Bool :=
  medical_keywords.any fun kw => containsT (toLowerT question) kw

/-- `str(e)` for the `UnboundLocalError` raised by the unconditional read of
`adverse_results` at orchestrateur.py line 72 when `drug_results` is empty.
Python renders the variable name in quotes; the exact wording (which also
varies across Python versions) is irrelevant to every claim and is
abbreviated here. -/
def unboundLocalMsg : Text :=
  T "local variable adverse_results referenced before assignment"

/-- The Wikipedia `try` block of `search_apis` (orchestrateur.py lines 47-55):
add every result, or record one "Wikipedia error: ..." string. -/
def searchApisWiki (resp : APIResponse) (wikiCall : Except Text (List APIResult)) :
    APIResponse :=
  match wikiCall with
  | .ok rs => rs.foldl APIResponse.add_result resp
  | .error e => resp.add_error (T "Wikipedia error: " ++ e)

/-- The OpenFDA `try` block of `search_apis` (orchestrateur.py lines 58-76):
drug results are added first; the adverse-effects call runs only when the drug
list is non-empty; the trailing log line reads `adverse_results`
unconditionally, so an empty drug list raises `UnboundLocalError` inside the
`try` and is recorded as an "OpenFDA error: ..." string. -/
def searchApisFda (resp : APIResponse)
    (drugCall advCall : Except Text (List APIResult)) : APIResponse :=
  match drugCall with
  | .error e => resp.add_error (T "OpenFDA error: " ++ e)
  | .ok drugs =>
      let resp := drugs.foldl APIResponse.add_result resp
      if drugs.isEmpty then
        resp.add_error (T "OpenFDA error: " ++ unboundLocalMsg)
      else
        match advCall with
        | .error e => resp.add_error (T "OpenFDA error: " ++ e)
        | .ok advs => advs.foldl APIResponse.add_result resp

/-- `PersonCOrchestrator.search_apis` (orchestrateur.py lines 30-79).  The two
adapter calls `wikipedia.search` and `openfda.search_drugs` /
`search_adverse_effects` perform network I/O; their outcomes (a result list,
or the exception they raise) are passed in as `wikiCall`, `drugCall` and
`advCall`. -/
def search_apis (wikiCall drugCall advCall : Except Text (List APIResult))
    (question : Text) : APIResponse :=
  let resp := APIResponse.init question
  let resp := searchApisWiki resp wikiCall
  if looks_medical question then searchApisFda resp drugCall advCall
  else resp

/-- Python `s.replace(chr(10) ++ chr(10), chr(10))`: left-to-right,
non-overlapping replacement of doubled newlines, as used on result content in
`format_for_llm`. -/
def replaceDoubleNewline : Text → Text
  | [] => []
  | c :: rest =>
      if c == '\n' then
        match rest with
        | c' :: rest' => if c' == '\n' then '\n' :: replaceDoubleNewline rest'
                         else '\n' :: replaceDoubleNewline (c' :: rest')
        | [] => ['\n']
      else c :: replaceDoubleNewline rest

/-- The content cleanup of `format_for_llm` (orchestrateur.py lines 150-152):
collapse doubled newlines, strip, and truncate to 200 characters plus an
ellipsis. -/
def cleanContentForLlm (content : Text) : Text :=
  let c := trimT (replaceDoubleNewline content)
  if c.length > 200 then c.take 200 ++ T "..." else c

/-- The `by_source` grouping loop of `format_for_llm` (orchestrateur.py lines
137-141): a dict keyed by `result.source`, keys in first-seen order, each
bucket in arrival order. -/
def insertGrouped (acc : List (Text × List APIResult)) (r : APIResult) :
    List (Text × List APIResult) :=
  if acc.any (fun p => p.1 == r.source) then
    acc.map (fun p => if p.1 == r.source then (p.1, p.2 ++ [r]) else p)
  else acc ++ [(r.source, [r])]

/-- Grouping of a result list by source (the `by_source` dict). -/
def groupBySource (rs : List APIResult) : List (Text × List APIResult) :=
  rs.foldl insertGrouped []

/-- First-seen-order deduplication of a key sequence: the key order a Python
dict built by insertion produces. -/
def firstSeen (l : List Text) : List Text :=
  l.foldl (fun acc s => if acc.any (fun t => t == s) then acc else acc ++ [s]) []

/-- One numbered entry of a section of `format_for_llm` (lines 146-154). -/
def renderNumbered : Nat → List APIResult → Text
  | _, [] => []
  | i, r :: rest =>
      (Nat.repr i).data ++ T ". " ++ r.title ++ T "\n   " ++
        cleanContentForLlm r.content ++ T "\n\n" ++ renderNumbered (i + 1) rest

/-- One `=== SOURCE ===` section of `format_for_llm` (lines 144-154), showing
at most `maxPer` results. -/
def renderSection (maxPer : Nat) (p : Text × List APIResult) : Text :=
  T "=== " ++ toUpperT p.1 ++ T " ===\n" ++ renderNumbered 1 (p.2.take maxPer)

/-- The ASCII apostrophe (kept out of string literals). -/
def quoteChar : Char := Char.ofNat 39

/-- `PersonCOrchestrator.format_for_llm` (orchestrateur.py lines 121-156):
runs `search_apis`, returns a fixed "nothing found" string on an empty result
list, otherwise a header plus one section per source. -/
def format_for_llm (wikiCall drugCall advCall : Except Text (List APIResult))
    (question : Text) (maxPer : Nat) : Text :=
  let response := search_apis wikiCall drugCall advCall question
  if response.results.isEmpty then
    T "Aucune information externe trouvée pour: " ++ question
  else
    T "INFORMATIONS EXTERNES POUR: " ++ [quoteChar] ++ question ++ [quoteChar] ++
      T "\n\n" ++
      ((groupBySource response.results).map (renderSection maxPer)).foldl (· ++ ·) []

/-! ## Source adapters (src/noussaiba_mdaghri/wikipedia.py, src/openfda.py)

`DataCleaner.clean_html` (parsers.py) runs BeautifulSoup/regex cleanup inside
its own `try/except` and always returns a string; its text transformation is
kept abstract as a parameter `chCore` (resp. `rmCite` for
`remove_citations`), while its type/emptiness guard is modelled explicitly. -/

/-- `DataCleaner.clean_html` (parsers.py lines 18-69): returns the empty
string for falsy or non-string input, otherwise some total cleanup `chCore`
of the text bounded by `maxLen`. -/
def clean_html (chCore : Text → Nat → Text) (v : PyVal) (maxLen : Nat) : Text :=
  match v with
  | .str s => if s.isEmpty then [] else chCore s maxLen
  | _ => []

/-- The `try` body of `WikipediaClient._parse_search_result` (wikipedia.py
lines 116-144), in the exception monad. -/
def wiki_parse_body (chCore : Text → Nat → Text) (rmCite : Text → Text)
    (item : PyVal) : Except Text (Option APIResult) := do
  let pageid ← pyGet item (T "pageid") .pnone
  let title ← pyGet item (T "title") (.str [])
  let snippet ← pyGet item (T "snippet") (.str [])
  if !pyTruthy title then return none
  let cleanSnippet := rmCite (clean_html chCore snippet 500)
  let url := if pyTruthy pageid then
      some (T "https://fr.wikipedia.org/?curid=" ++ pyToText pageid)
    else none
  return some { source := T "wikipedia", title := pyToText title,
                content := cleanSnippet, url := url, confidence := 0.8,
                metadata := [(T "page_id", pageid)] }

/-- `WikipediaClient._parse_search_result`: its `except` clause converts any
failure to `None`. -/
def wiki_parse_search_result (chCore : Text → Nat → Text) (rmCite : Text → Text)
    (item : PyVal) : Option APIResult :=
  match wiki_parse_body chCore rmCite item with
  | .ok r => r
  | .error _ => none

/-- The `try` body of `WikipediaClient.search` (wikipedia.py lines 35-71), in
the exception monad.  `httpResult` is the outcome of
`http_client.get(BASE_URL, params)` (the request parameters only shape the
upstream response, which is already folded into `httpResult`). -/
def wikipedia_search_body (chCore : Text → Nat → Text) (rmCite : Text → Text)
    (httpResult : Except Text PyVal) : Except Text (List APIResult) :=
  match httpResult with
  | .error e => .error e
  | .ok data =>
    match pyIn (T "query") data with
    | .error e => .error e
    | .ok hasQuery =>
      if !hasQuery then .ok []
      else
        match pySubscript data (T "query") with
        | .error e => .error e
        | .ok dq =>
          match pyIn (T "search") dq with
          | .error e => .error e
          | .ok hasSearch =>
            if !hasSearch then .ok []
            else
              match pySubscript dq (T "search") with
              | .error e => .error e
              | .ok searchResults =>
                match pyIterList searchResults with
                | .error e => .error e
                | .ok items =>
                    .ok (items.filterMap (wiki_parse_search_result chCore rmCite))

/-- `WikipediaClient.search` (wikipedia.py lines 21-74): the whole body runs
inside `try/except Exception`, whose handler returns the empty list. -/
def wikipedia_search (chCore : Text → Nat → Text) (rmCite : Text → Text)
    (httpResult : Except Text PyVal) : List APIResult :=
  match wikipedia_search_body chCore rmCite httpResult with
  | .ok l => l
  | .error _ => []

/-- The `try` body of `OpenFDAClient._parse_drug` (openfda.py lines 117-185),
in the exception monad. -/
def openfda_parse_drug_body (chCore : Text → Nat → Text) (drugData : PyVal)
    (query : Text) : Except Text (Option APIResult) := do
  let openfdaInfo ← pyGet drugData (T "openfda") (.dict [])
  let brandNames ← pyGet openfdaInfo (T "brand_name") (.list [])
  let genericNames ← pyGet openfdaInfo (T "generic_name") (.list [])
  let brandName ← if pyTruthy brandNames then pyIndexZero brandNames
    else pure (PyVal.str (capitalizeT query))
  let genericName ← if pyTruthy genericNames then pyIndexZero genericNames
    else pure (PyVal.str query)
  let title := if !(brandName == genericName) then
      pyToText brandName ++ T " (" ++ pyToText genericName ++ T ")"
    else pyToText genericName
  let indications ← pyGet drugData (T "indications_and_usage") (.list [.str []])
  let dosage ← pyGet drugData (T "dosage_and_administration") (.list [.str []])
  let warnings ← pyGet drugData (T "warnings") (.list [.str []])
  let description ← pyGet drugData (T "description") (.list [.str []])
  let ind0 ← if pyTruthy indications then pyIndexZero indications else pure (PyVal.str [])
  let dos0 ← if pyTruthy dosage then pyIndexZero dosage else pure (PyVal.str [])
  let war0 ← if pyTruthy warnings then pyIndexZero warnings else pure (PyVal.str [])
  let des0 ← if pyTruthy description then pyIndexZero description else pure (PyVal.str [])
  let cleanInd := clean_html chCore ind0 300
  let cleanDos := clean_html chCore dos0 200
  let cleanWar := clean_html chCore war0 200
  let cleanDes := clean_html chCore des0 400
  let parts :=
    (if !cleanDes.isEmpty then [T "📋 Description: " ++ cleanDes] else []) ++
    (if !cleanInd.isEmpty then [T "🎯 Indications: " ++ cleanInd] else []) ++
    (if !cleanDos.isEmpty then [T "💊 Dosage: " ++ cleanDos] else []) ++
    (if !cleanWar.isEmpty then [T "⚠️  Avertissements: " ++ cleanWar] else [])
  let content := List.intercalate (T "\n\n") parts
  let splIds ← pyGet openfdaInfo (T "spl_id") (.list [])
  let url ← if pyTruthy splIds then do
      let s ← pyIndexZero splIds
      pure (some (T "https://www.accessdata.fda.gov/scripts/cder/daf/index.cfm?event=overview.process&ApplNo="
        ++ pyToText s))
    else pure none
  let manufacturerL ← pyGet openfdaInfo (T "manufacturer_name") (.list [.str (T "Inconnu")])
  let manufacturer ← pyIndexZero manufacturerL
  let routeL ← pyGet openfdaInfo (T "route") (.list [.str []])
  let route ← pyIndexZero routeL
  let productL ← pyGet openfdaInfo (T "product_type") (.list [.str []])
  let product ← pyIndexZero productL
  let drugId ← if pyTruthy splIds then pyIndexZero splIds else pure PyVal.pnone
  return some { source := T "openfda", title := title, content := content,
                url := url, confidence := 0.95,
                metadata := [(T "drug_id", drugId), (T "manufacturer", manufacturer),
                             (T "brand_names", brandNames),
                             (T "generic_names", genericNames),
                             (T "route", route), (T "product_type", product)] }

/-- `OpenFDAClient._parse_drug`: any failure becomes `None`. -/
def openfda_parse_drug (chCore : Text → Nat → Text) (query : Text)
    (drugData : PyVal) : Option APIResult :=
  match openfda_parse_drug_body chCore drugData query with
  | .ok r => r
  | .error _ => none

/-- The `try` body of `OpenFDAClient.search_drugs` (openfda.py lines 35-70),
in the exception monad. -/
def openfda_search_drugs_body (chCore : Text → Nat → Text)
    (httpResult : Except Text PyVal) (query : Text) (maxResults : Nat) :
    Except Text (List APIResult) :=
  match httpResult with
  | .error e => .error e
  | .ok data =>
    match pyIn (T "results") data with
    | .error e => .error e
    | .ok hasResults =>
      if !hasResults then .ok []
      else
        match pySubscript data (T "results") with
        | .error e => .error e
        | .ok drugs =>
          match pySliceTake drugs maxResults with
          | .error e => .error e
          | .ok sliced =>
            match pyIterList sliced with
            | .error e => .error e
            | .ok items => .ok (items.filterMap (openfda_parse_drug chCore query))

/-- `OpenFDAClient.search_drugs` (openfda.py lines 21-74): the whole body runs
inside `try/except Exception`, whose handler returns the empty list. -/
def openfda_search_drugs (chCore : Text → Nat → Text)
    (httpResult : Except Text PyVal) (query : Text) (maxResults : Nat) :
    List APIResult :=
  match openfda_search_drugs_body chCore httpResult query maxResults with
  | .ok l => l
  | .error _ => []

/-! ## HTTP client retry (src/noussaiba_mdaghri/api_client.py) -/

/-- The `requests` exceptions distinguished by `HTTPClient.get`:
`Timeout` and `ConnectionError` are the retried types
(`retry_if_exception_type((Timeout, ConnectionError))`), `raise_for_status`
raises `HTTPError` carrying the 4xx/5xx status, and any other
`RequestException` is re-raised unchanged by the inner handler. -/
inductive ReqError where
  | timeout : ReqError
  | connectionError : ReqError
  | httpError : Nat → ReqError
  | otherRequestError : Text → ReqError
deriving Repr, DecidableEq

/-- `retry_if_exception_type((Timeout, ConnectionError))`: which exceptions
trigger a retry. -/
def retryable : ReqError → Bool
  | .timeout => true
  | .connectionError => true
  | _ => false

/-- `wait_exponential(multiplier=1, min=2, max=10)` of tenacity: the sleep
after the failure of attempt `n` (1-based), clamped into `[2, 10]`. -/
def waitExponential (n : Nat) : ℚ :=
  max (max 0 2) (min ((2 : ℚ) ^ n) 10)

/-- The tenacity retry loop around one decorated call, with
`stop_after_attempt(3)` and `reraise=True`: `f n` is the outcome of the `n`-th
attempt of the body of `HTTPClient.get` (api_client.py lines 55-118) — a JSON
value on success (a non-JSON body is already the degraded `text` dict), or the
exception the attempt raised.  Returns the overall outcome, the number of
attempts made, and the list of sleeps performed.  `attemptsLeft` is the number
of retries still allowed after the current attempt. -/
def retryRun (f : Nat → Except ReqError PyVal) :
    Nat → Nat → Except ReqError PyVal × Nat × List ℚ
  | attempt, 0 => (f attempt, attempt, [])
  | attempt, attemptsLeft + 1 =>
      match f attempt with
      | .ok v => (.ok v, attempt, [])
      | .error e =>
          if retryable e then
            let rest := retryRun f (attempt + 1) attemptsLeft
            (rest.1, rest.2.1, waitExponential attempt :: rest.2.2)
          else (.error e, attempt, [])

/-- `HTTPClient.get` under its `@retry` decorator: first attempt numbered 1,
at most two retries after it. -/
def http_get (f : Nat → Except ReqError PyVal) : Except ReqError PyVal × Nat × List ℚ :=
  retryRun f 1 2

/-! ## Helper lemmas -/

/-- `containsT` decides substring membership. -/
theorem containsT_substring_iff (hay needle : Text) :
    containsT hay needle = true ↔ needle <:+: hay := by
  unfold containsT
  rw [List.any_eq_true]
  constructor
  · rintro ⟨t, ht, hp⟩
    rw [List.mem_tails _ _] at ht
    exact List.infix_iff_prefix_suffix.mpr ⟨t, List.isPrefixOf_iff_prefix.mp hp, ht⟩
  · intro h
    obtain ⟨t, hpre, hsuf⟩ := List.infix_iff_prefix_suffix.mp h
    exact ⟨t, (List.mem_tails _ _).mpr hsuf, List.isPrefixOf_iff_prefix.mpr hpre⟩

/-- Lowercasing fixes whitespace characters. -/
theorem toLower_of_isWhitespace (c : Char) (h : c.isWhitespace = true) :
    c.toLower = c := by
  simp [Char.isWhitespace] at h
  rcases h with ((h | h) | h) | h <;> subst h <;> decide

/-- A character whose lowercase form is not whitespace is not whitespace. -/
theorem not_isWhitespace_of_toLower (c : Char)
    (h : (c.toLower).isWhitespace = false) : c.isWhitespace = false := by
  by_contra hc
  rw [Bool.not_eq_false] at hc
  rw [toLower_of_isWhitespace c hc] at h
  rw [hc] at h
  exact absurd h (by simp)

/-- Dropping a whitespace prefix keeps the non-whitespace character count. -/
theorem countP_dropWhile_whitespace (l : Text) :
    (l.dropWhile Char.isWhitespace).countP (fun c => !c.isWhitespace) =
      l.countP (fun c => !c.isWhitespace) := by
  conv_rhs => rw [← List.takeWhile_append_dropWhile (p := Char.isWhitespace) (l := l)]
  rw [List.countP_append _ _ _]
  have hz : (l.takeWhile Char.isWhitespace).countP (fun c => !c.isWhitespace) = 0 := by
    rw [List.countP_eq_zero]
    intro a ha
    have := List.mem_takeWhile_imp ha
    simp [this]
  omega

/-- Reversal keeps character counts. -/
theorem countP_reverse_text (p : Char → Bool) (l : Text) :
    l.reverse.countP p = l.countP p := by
  simp [List.countP_eq_length_filter]

/-- `strip` keeps the non-whitespace character count. -/
theorem countP_trimT (l : Text) :
    (trimT l).countP (fun c => !c.isWhitespace) =
      l.countP (fun c => !c.isWhitespace) := by
  unfold trimT
  rw [countP_reverse_text, countP_dropWhile_whitespace, countP_reverse_text,
    countP_dropWhile_whitespace]

/-- A string containing a denylist phrase has at least as many non-whitespace
characters as the phrase. -/
theorem countP_of_infix_toLower (q kw : Text)
    (h : kw <:+: toLowerT q) :
    kw.countP (fun c => !c.isWhitespace) ≤ q.countP (fun c => !c.isWhitespace) := by
  obtain ⟨s, u, heq⟩ := h
  have h1 : (toLowerT q).countP (fun c => !c.isWhitespace) =
      s.countP (fun c => !c.isWhitespace) + kw.countP (fun c => !c.isWhitespace) +
        u.countP (fun c => !c.isWhitespace) := by
    rw [← heq, List.countP_append _ _ _, List.countP_append _ _ _]
  have h2 : (toLowerT q).countP (fun c => !c.isWhitespace) ≤
      q.countP (fun c => !c.isWhitespace) := by
    unfold toLowerT
    rw [List.countP_map _ _ _]
    refine List.countP_mono_left ?_
    intro a _ ha
    simp only [Function.comp] at ha
    simp only [Bool.not_eq_true'] at ha ⊢
    exact not_isWhitespace_of_toLower a ha
  omega

/-- Every denylist phrase has at least three non-whitespace characters. -/
theorem dangerous_keywords_countP :
    ∀ kw ∈ dangerous_keywords, 3 ≤ kw.countP (fun c => !c.isWhitespace) := by
  decide

/-- A string containing a denylist phrase survives both length checks of
`validate_input`: its stripped form has at least three characters. -/
theorem trim_length_of_dangerous (q kw : Text) (hkw : kw ∈ dangerous_keywords)
    (h : containsT (toLowerT q) kw = true) : 3 ≤ (trimT q).length := by
  have hinf := (containsT_substring_iff _ _).mp h
  have h1 := countP_of_infix_toLower q kw hinf
  have h2 := dangerous_keywords_countP kw hkw
  have h3 := countP_trimT q
  have h4 := List.countP_le_length (p := fun c => !c.isWhitespace) (l := trimT q)
  omega

/-- Folding `add_result` over a list appends the list to `results` and leaves
the other fields unchanged. -/
theorem foldl_add_result (resp : APIResponse) (rs : List APIResult) :
    rs.foldl APIResponse.add_result resp =
      { resp with results := resp.results ++ rs } := by
  induction rs generalizing resp with
  | nil => simp
  | cons x xs ih =>
      simp only [List.foldl_cons, ih]
      simp [APIResponse.add_result]

/-- A list is a Boolean prefix of itself followed by anything. -/
theorem isPrefixOf_append_self (l t : Text) : l.isPrefixOf (l ++ t) = true :=
  List.isPrefixOf_iff_prefix.mpr ⟨t, rfl⟩

/-- "OpenFDA error: " never prefixes a Wikipedia error string. -/
theorem openfda_not_prefix_wiki (t : Text) :
    (T "OpenFDA error: ").isPrefixOf (T "Wikipedia error: " ++ t) = false := by
  show (('O' : Char) :: (T "penFDA error: ")).isPrefixOf
    ('W' :: (T "ikipedia error: " ++ t)) = false
  simp [List.isPrefixOf]

/-! ## Claim theorems -/

/-- Claim C1: every input containing a phrase from the self-harm/crisis
denylist makes `classify_question` return the refusal ActionPlan
`{domain: medical, intent: dangerous_or_sensitive, confidence: 1.0,
risk_level: high, needs_external_data: false, llm_mode: refusal}`, for every
classifier whatsoever — the safety screen precedes and dominates
classification. -/
theorem classify_question_dangerous (classify : Text → Classification) (q : Text)
    (h : ∃ kw ∈ dangerous_keywords, containsT (toLowerT q) kw = true) :
    classify_question classify q = dangerPlan := by
  obtain ⟨kw, hkw, hcont⟩ := h
  have h3 := trim_length_of_dangerous q kw hkw hcont
  have hne : q.isEmpty = false := by
    cases q with
    | nil => simp [trimT] at h3
    | cons a l => rfl
  have hcond1 : (q.isEmpty || (trimT q).length == 0) = false := by
    rw [hne]
    simp only [Bool.false_or, beq_eq_false_iff_ne, ne_eq]
    omega
  have hcond2 : ¬ ((trimT q).length < 3) := by omega
  have hfind : ∃ k, dangerous_keywords.find? (fun w => containsT (toLowerT q) w) = some k := by
    cases hf : dangerous_keywords.find? (fun w => containsT (toLowerT q) w) with
    | none => exact absurd hcont (by simpa using List.find?_eq_none.mp hf kw hkw)
    | some k => exact ⟨k, rfl⟩
  obtain ⟨k, hk⟩ := hfind
  have hval : (validate_input q).valid = true ∧
      (validate_input q).risk_level = some (T "high") := by
    unfold validate_input
    rw [hcond1, if_neg hcond2, hk]
    simp
  unfold classify_question
  simp [hval.1, hval.2]

/-- Claim C2: low classifier confidence with any label other than the
non-medical one makes `create_plan` return the conservative refusal plan. -/
theorem create_plan_low_refusal (c : Classification)
    (h : c.label ≠ T "non-medical question") :
    create_plan c (T "low") =
      { domain := T "medical", intent := T "uncertain_medical_question",
        confidence := c.score, risk_level := T "medium",
        needs_external_data := true, llm_mode := T "refusal" } := by
  simp [create_plan, h]

/-- Witness for C2 at a concrete classification. -/
theorem create_plan_low_refusal_witness :
    create_plan ⟨T "medical definition question", 1/5⟩ (T "low") =
      { domain := T "medical", intent := T "uncertain_medical_question",
        confidence := 1/5, risk_level := T "medium",
        needs_external_data := true, llm_mode := T "refusal" } :=
  create_plan_low_refusal ⟨T "medical definition question", 1/5⟩ (by decide)

/-- Claim C3: the non-medical label yields the direct low-risk plan with no
external data, for every score and every confidence level. -/
theorem create_plan_non_medical (c : Classification) (confidence : Text)
    (h : c.label = T "non-medical question") :
    create_plan c confidence =
      { domain := T "non-medical", intent := T "general_question",
        confidence := c.score, risk_level := T "low",
        needs_external_data := false, llm_mode := T "direct" } := by
  simp [create_plan, h]

/-- Witness for C3 at a concrete classification and confidence. -/
theorem create_plan_non_medical_witness :
    create_plan ⟨T "non-medical question", 1/10⟩ (T "low") =
      { domain := T "non-medical", intent := T "general_question",
        confidence := 1/10, risk_level := T "low",
        needs_external_data := false, llm_mode := T "direct" } :=
  create_plan_non_medical ⟨T "non-medical question", 1/10⟩ (T "low") (by decide)

/-- Ordering of the three confidence levels, for stating monotonicity. -/
def confidenceRank (c : Text) : Nat :=
  if c == T "high" then 2 else if c == T "medium" then 1 else 0

/-- Claim C4: `compute_confidence` is the stated boundary-inclusive threshold
function of the score, monotone in the score, with the stated values at
0.75, 0.749999, 0.40 and 0.399999. -/
theorem compute_confidence_thresholds :
    (∀ s : ℚ, (0.75 ≤ s → compute_confidence s = T "high")
      ∧ (0.4 ≤ s → s < 0.75 → compute_confidence s = T "medium")
      ∧ (s < 0.4 → compute_confidence s = T "low"))
    ∧ (∀ s t : ℚ, s ≤ t →
        confidenceRank (compute_confidence s) ≤ confidenceRank (compute_confidence t))
    ∧ compute_confidence 0.75 = T "high"
    ∧ compute_confidence (749999/1000000) = T "medium"
    ∧ compute_confidence 0.4 = T "medium"
    ∧ compute_confidence (399999/1000000) = T "low" := by
  have hval : ∀ s : ℚ, (0.75 ≤ s → compute_confidence s = T "high")
      ∧ (0.4 ≤ s → s < 0.75 → compute_confidence s = T "medium")
      ∧ (s < 0.4 → compute_confidence s = T "low") := by
    intro s
    refine ⟨fun h => ?_, fun h1 h2 => ?_, fun h => ?_⟩
    · rw [compute_confidence, if_pos h]
    · rw [compute_confidence, if_neg (by linarith), if_pos h1]
    · rw [compute_confidence, if_neg (by linarith), if_neg (by linarith)]
  have rankLow : confidenceRank (T "low") = 0 := by decide
  have rankMed : confidenceRank (T "medium") = 1 := by decide
  have rankHigh : confidenceRank (T "high") = 2 := by decide
  refine ⟨hval, ?_, ?_, ?_, ?_, ?_⟩
  · intro s t hst
    by_cases hs75 : 0.75 ≤ s
    · rw [(hval s).1 hs75, (hval t).1 (by linarith)]
    · by_cases hs4 : 0.4 ≤ s
      · rw [(hval s).2.1 hs4 (by linarith)]
        by_cases ht75 : 0.75 ≤ t
        · rw [(hval t).1 ht75, rankMed, rankHigh]
          omega
        · rw [(hval t).2.1 (by linarith) (by linarith)]
      · rw [(hval s).2.2 (by linarith), rankLow]
        exact Nat.zero_le _
  · exact (hval _).1 (by norm_num)
  · exact (hval _).2.1 (by norm_num) (by norm_num)
  · exact (hval _).2.1 (by norm_num) (by norm_num)
  · exact (hval _).2.2 (by norm_num)

/-- Witness for C4: the threshold clauses applied at concrete scores. -/
theorem compute_confidence_thresholds_witness :
    compute_confidence 1 = T "high" ∧ compute_confidence (1/2) = T "medium" ∧
      compute_confidence 0 = T "low" :=
  ⟨(compute_confidence_thresholds.1 1).1 (by norm_num),
   (compute_confidence_thresholds.1 (1/2)).2.1 (by norm_num) (by norm_num),
   (compute_confidence_thresholds.1 0).2.2 (by norm_num)⟩

/-- A concrete non-empty result, used for concrete envelopes. -/
def sampleWikiResult : APIResult :=
  { source := T "wikipedia", title := T "Aspirine", content := T "contenu",
    url := none, confidence := 0.8, metadata := [] }

/-- A concrete OpenFDA-style result. -/
def sampleFdaResult : APIResult :=
  { source := T "openfda", title := T "Aspirin", content := T "contenu",
    url := none, confidence := 0.95, metadata := [] }

/-- Claim C6: on every envelope reachable through `add_result`/`add_error`
from construction, `success` is false exactly when at least one error was
recorded; and an envelope with `success = false` together with non-empty
results is reachable — partial success is representable. -/
theorem apiresponse_success_iff_errors :
    (∀ r : APIResponse, r.Reachable → (r.success = false ↔ r.errors ≠ []))
    ∧ (∃ r : APIResponse, r.Reachable ∧ r.success = false ∧ r.results ≠ []) := by
  constructor
  · intro r h
    induction h with
    | init q => simp [APIResponse.init]
    | addResult r x hr ih => simpa [APIResponse.add_result] using ih
    | addError r e hr ih => simp [APIResponse.add_error]
  · refine ⟨((APIResponse.init (T "aspirin")).add_result sampleWikiResult).add_error
      (T "OpenFDA error: boom"), ?_, by simp [APIResponse.init, APIResponse.add_result,
        APIResponse.add_error], by simp [APIResponse.init, APIResponse.add_result,
        APIResponse.add_error]⟩
    exact .addError _ _ (.addResult _ _ (.init _))

/-- Witness for C6: the invariant applied to a concrete reachable envelope. -/
theorem apiresponse_success_iff_errors_witness :
    ((APIResponse.init (T "q")).add_error (T "boom")).success = false ↔
      ((APIResponse.init (T "q")).add_error (T "boom")).errors ≠ [] :=
  apiresponse_success_iff_errors.1 _ (.addError _ _ (.init _))

/-- Claim C10: a question passing the medical-keyword heuristic whose drug
search succeeds with an empty list still yields `succeeded = false` and
exactly one "OpenFDA error: ..." string, because the trailing log line reads
the never-assigned `adverse_results` and the resulting `UnboundLocalError` is
caught as an OpenFDA failure — no source call raised. -/
theorem search_apis_empty_drug_bug (wikiCall advCall : Except Text (List APIResult))
    (q : Text) (hmed : looks_medical q = true) :
    (search_apis wikiCall (Except.ok []) advCall q).success = false ∧
    (search_apis wikiCall (Except.ok []) advCall q).errors.countP
      (fun e => (T "OpenFDA error: ").isPrefixOf e) = 1 := by
  unfold search_apis
  rw [hmed]
  cases wikiCall with
  | ok rs =>
      simp [searchApisWiki, searchApisFda, foldl_add_result, APIResponse.add_error,
        APIResponse.init, isPrefixOf_append_self]
  | error e =>
      simp [searchApisWiki, searchApisFda, APIResponse.add_error, APIResponse.init,
        isPrefixOf_append_self, openfda_not_prefix_wiki]

/-- Witness for C10: concrete medical question with an empty drug search. -/
theorem search_apis_empty_drug_bug_witness :
    (search_apis (Except.ok [sampleWikiResult]) (Except.ok []) (Except.ok [])
        (T "aspirin")).success = false ∧
    (search_apis (Except.ok [sampleWikiResult]) (Except.ok []) (Except.ok [])
        (T "aspirin")).errors.countP
      (fun e => (T "OpenFDA error: ").isPrefixOf e) = 1 :=
  search_apis_empty_drug_bug (Except.ok [sampleWikiResult]) (Except.ok [])
    (T "aspirin") (by decide)

/-- Witness for C1: a concrete denylist input under a classifier that would
call it non-medical with high confidence. -/
theorem classify_question_dangerous_witness :
    classify_question (fun _ => ⟨T "non-medical question", 99/100⟩)
        (T "I want to kill myself") = dangerPlan :=
  classify_question_dangerous _ _ ⟨T "kill myself", by decide, by decide⟩

/-- Counterexample to C5 as stated: on the medical question "aspirin", the
Wikipedia call fails and the drug-search call succeeds (with an empty list),
yet the envelope carries two error strings — the second is the spurious
OpenFDA error produced by the `adverse_results` bug — not exactly one. -/
theorem search_apis_one_failure_counterexample :
    (search_apis (Except.error (T "net down")) (Except.ok []) (Except.ok [])
        (T "aspirin")).errors =
      [T "Wikipedia error: net down", T "OpenFDA error: " ++ unboundLocalMsg] := by
  decide

/-- Claim C5 (amended): one source's failure never prevents aggregation of
the others' results, and the envelope records `succeeded = false` with
exactly one "<source> error: <message>" string naming the failed source —
provided that, when the failing adapter is Wikipedia, the succeeding drug
search returns a non-empty list (an empty drug list triggers the
`adverse_results` bug, which adds a second, spurious OpenFDA error). -/
theorem search_apis_partial_failure (q m : Text)
    (rs drugs advs : List APIResult) (advCall : Except Text (List APIResult)) :
    (looks_medical q = true → drugs ≠ [] →
      search_apis (Except.error m) (Except.ok drugs) (Except.ok advs) q =
        { query := q, results := drugs ++ advs, success := false,
          errors := [T "Wikipedia error: " ++ m] })
    ∧ (looks_medical q = true →
      search_apis (Except.ok rs) (Except.error m) advCall q =
        { query := q, results := rs, success := false,
          errors := [T "OpenFDA error: " ++ m] })
    ∧ (looks_medical q = true → drugs ≠ [] →
      search_apis (Except.ok rs) (Except.ok drugs) (Except.error m) q =
        { query := q, results := rs ++ drugs, success := false,
          errors := [T "OpenFDA error: " ++ m] }) := by
  refine ⟨fun hmed hd => ?_, fun hmed => ?_, fun hmed hd => ?_⟩
  · unfold search_apis
    rw [hmed]
    cases drugs with
    | nil => exact absurd rfl hd
    | cons d ds =>
        simp [searchApisWiki, searchApisFda, foldl_add_result,
          APIResponse.add_result, APIResponse.add_error, APIResponse.init]
  · unfold search_apis
    rw [hmed]
    simp [searchApisWiki, searchApisFda, foldl_add_result,
      APIResponse.add_result, APIResponse.add_error, APIResponse.init]
  · unfold search_apis
    rw [hmed]
    cases drugs with
    | nil => exact absurd rfl hd
    | cons d ds =>
        simp [searchApisWiki, searchApisFda, foldl_add_result,
          APIResponse.add_result, APIResponse.add_error, APIResponse.init]

/-- Witness for C5 (amended): concrete failing OpenFDA call beside a
succeeding Wikipedia call. -/
theorem search_apis_partial_failure_witness :
    search_apis (Except.ok [sampleWikiResult]) (Except.error (T "boom"))
        (Except.ok []) (T "aspirin") =
      { query := T "aspirin", results := [sampleWikiResult], success := false,
        errors := [T "OpenFDA error: " ++ T "boom"] } :=
  (search_apis_partial_failure (T "aspirin") (T "boom") [sampleWikiResult] [] []
    (Except.ok [])).2.1 (by decide)

/-- Every tenacity sleep is clamped into the interval [2, 10]. -/
theorem waitExponential_mem (n : Nat) :
    2 ≤ waitExponential n ∧ waitExponential n ≤ 10 := by
  unfold waitExponential
  constructor
  · exact le_trans (by norm_num) (le_max_left _ _)
  · exact max_le (by norm_num) (min_le_right _ _)

/-- Claim C8: `HTTPClient.get` makes between 1 and 3 attempts, every sleep
between attempts lies in [2, 10] seconds, the overall outcome is exactly the
last attempt's outcome (so a final failure propagates unwrapped), a
non-retryable first failure (such as a 4xx/5xx `HTTPError`) ends the call at
one attempt, and every attempt that was followed by another failed with a
retryable exception (`Timeout` or `ConnectionError`). -/
theorem http_get_retry_policy (f : Nat → Except ReqError PyVal) :
    (1 ≤ (http_get f).2.1 ∧ (http_get f).2.1 ≤ 3)
    ∧ (∀ w ∈ (http_get f).2.2, 2 ≤ w ∧ w ≤ 10)
    ∧ (http_get f).1 = f (http_get f).2.1
    ∧ (∀ e, retryable e = false → f 1 = Except.error e →
        (http_get f).2.1 = 1 ∧ (http_get f).1 = Except.error e)
    ∧ (∀ k, 1 ≤ k → k < (http_get f).2.1 →
        ∃ e, f k = Except.error e ∧ retryable e = true) := by
  rcases h1 : f 1 with e1 | v1
  · by_cases hr1 : retryable e1
    · rcases h2 : f 2 with e2 | v2
      · by_cases hr2 : retryable e2
        · have hg : http_get f = (f 3, 3, [waitExponential 1, waitExponential 2]) := by
            simp [http_get, retryRun, h1, hr1, h2, hr2]
          have hga : (http_get f).2.1 = 3 := by rw [hg]
          have hgr : (http_get f).1 = f 3 := by rw [hg]
          have hgw : (http_get f).2.2 = [waitExponential 1, waitExponential 2] := by rw [hg]
          rw [hga, hgr, hgw]
          refine ⟨by omega, ?_, rfl, fun e hre hfe => ?_, fun k hk1 hk2 => ?_⟩
          · intro w hw
            rcases List.mem_cons.mp hw with rfl | hw
            · exact waitExponential_mem 1
            · rcases List.mem_cons.mp hw with rfl | hw
              · exact waitExponential_mem 2
              · exact absurd hw (List.not_mem_nil w)
          · injection hfe with he
            subst he
            rw [hre] at hr1
            exact absurd hr1 (by simp)
          · interval_cases k
            · exact ⟨e1, h1, hr1⟩
            · exact ⟨e2, h2, hr2⟩
        · have hg : http_get f = (Except.error e2, 2, [waitExponential 1]) := by
            simp [http_get, retryRun, h1, hr1, h2, hr2]
          have hga : (http_get f).2.1 = 2 := by rw [hg]
          have hgr : (http_get f).1 = Except.error e2 := by rw [hg]
          have hgw : (http_get f).2.2 = [waitExponential 1] := by rw [hg]
          rw [hga, hgr, hgw]
          refine ⟨by omega, ?_, h2.symm, fun e hre hfe => ?_, fun k hk1 hk2 => ?_⟩
          · intro w hw
            rcases List.mem_cons.mp hw with rfl | hw
            · exact waitExponential_mem 1
            · exact absurd hw (List.not_mem_nil w)
          · injection hfe with he
            subst he
            rw [hre] at hr1
            exact absurd hr1 (by simp)
          · interval_cases k
            exact ⟨e1, h1, hr1⟩
      · have hg : http_get f = (Except.ok v2, 2, [waitExponential 1]) := by
          simp [http_get, retryRun, h1, hr1, h2]
        have hga : (http_get f).2.1 = 2 := by rw [hg]
        have hgr : (http_get f).1 = Except.ok v2 := by rw [hg]
        have hgw : (http_get f).2.2 = [waitExponential 1] := by rw [hg]
        rw [hga, hgr, hgw]
        refine ⟨by omega, ?_, h2.symm, fun e hre hfe => ?_, fun k hk1 hk2 => ?_⟩
        · intro w hw
          rcases List.mem_cons.mp hw with rfl | hw
          · exact waitExponential_mem 1
          · exact absurd hw (List.not_mem_nil w)
        · injection hfe with he
          subst he
          rw [hre] at hr1
          exact absurd hr1 (by simp)
        · interval_cases k
          exact ⟨e1, h1, hr1⟩
    · have hg : http_get f = (Except.error e1, 1, []) := by
        simp [http_get, retryRun, h1, hr1]
      have hga : (http_get f).2.1 = 1 := by rw [hg]
      have hgr : (http_get f).1 = Except.error e1 := by rw [hg]
      have hgw : (http_get f).2.2 = [] := by rw [hg]
      rw [hga, hgr, hgw]
      refine ⟨by omega, by simp, h1.symm, fun e _ hfe => ⟨rfl, hfe⟩,
        fun k hk1 hk2 => by omega⟩
  · have hg : http_get f = (Except.ok v1, 1, []) := by
      simp [http_get, retryRun, h1]
    have hga : (http_get f).2.1 = 1 := by rw [hg]
    have hgr : (http_get f).1 = Except.ok v1 := by rw [hg]
    have hgw : (http_get f).2.2 = [] := by rw [hg]
    rw [hga, hgr, hgw]
    refine ⟨by omega, by simp, h1.symm, fun e _ hfe => absurd hfe (by simp),
      fun k hk1 hk2 => by omega⟩

/-- Witness for C8: a permanent 500 response is not retried and propagates. -/
theorem http_get_retry_policy_witness :
    (http_get fun _ => Except.error (ReqError.httpError 500)).2.1 = 1 ∧
    (http_get fun _ => Except.error (ReqError.httpError 500)).1 =
      Except.error (ReqError.httpError 500) :=
  (http_get_retry_policy fun _ => Except.error (ReqError.httpError 500)).2.2.2.1
    (ReqError.httpError 500) rfl rfl

/-- Lookup of a source's bucket in the grouped structure (first entry with the
key, as a Python dict lookup). -/
def lookupG (s : Text) (g : List (Text × List APIResult)) : List APIResult :=
  match g.find? (fun p => p.1 == s) with
  | some p => p.2
  | none => []

/-- One `insertGrouped` step changes exactly the bucket of the inserted
result's source, appending the result to it. -/
theorem lookupG_insertGrouped (acc : List (Text × List APIResult)) (r : APIResult)
    (s : Text) :
    lookupG s (insertGrouped acc r) =
      if r.source == s then lookupG s acc ++ [r] else lookupG s acc := by
  unfold insertGrouped
  by_cases hpres : acc.any (fun p => p.1 == r.source)
  · rw [if_pos hpres]
    unfold lookupG
    rw [List.find?_map]
    have hcomp : ((fun p : Text × List APIResult => p.1 == s) ∘
        (fun p : Text × List APIResult =>
          if p.1 == r.source then (p.1, p.2 ++ [r]) else p)) =
        (fun p : Text × List APIResult => p.1 == s) := by
      funext p
      by_cases h : p.1 == r.source <;> simp [Function.comp, h]
    rw [hcomp]
    cases hf : acc.find? (fun p => p.1 == s) with
    | none =>
        simp only [Option.map_none]
        by_cases hrs : r.source == s
        · exfalso
          rw [List.any_eq_true] at hpres
          obtain ⟨p, hp, hps⟩ := hpres
          have h1 : p.1 = r.source := by simpa using hps
          have h2 : r.source = s := by simpa using hrs
          have := List.find?_eq_none.mp hf p hp
          simp [h1, h2] at this
        · rw [if_neg hrs]
          rfl
    | some p =>
        simp only [Option.map_some]
        have hps : p.1 = s := by
          have := List.find?_some hf
          simpa using this
        by_cases hrs : r.source == s
        · have h2 : r.source = s := by simpa using hrs
          simp [hps, h2]
        · have h2 : ¬ r.source = s := by simpa using hrs
          have h3 : ¬ p.1 = r.source := by
            rw [hps]
            exact fun h => h2 h.symm
          simp [h3, h2]
  · rw [if_neg hpres]
    rw [Bool.not_eq_true] at hpres
    unfold lookupG
    rw [List.find?_append]
    cases hf : acc.find? (fun p => p.1 == s) with
    | none =>
        simp only [Option.none_or]
        by_cases hrs : r.source == s
        · simp [List.find?, hrs]
        · simp [List.find?, hrs]
    | some p =>
        simp only [Option.or]
        have hps : p.1 = s := by
          have := List.find?_some hf
          simpa using this
        by_cases hrs : r.source == s
        · exfalso
          rw [List.any_eq_false] at hpres
          have hmem := List.mem_of_find?_eq_some hf
          have h2 : r.source = s := by simpa using hrs
          exact hpres p hmem (by simp [hps, h2])
        · rw [if_neg hrs]

/-- Folding `insertGrouped` appends, bucket by bucket, each source's results
in arrival order. -/
theorem lookupG_foldl (rs : List APIResult) (acc : List (Text × List APIResult))
    (s : Text) :
    lookupG s (rs.foldl insertGrouped acc) =
      lookupG s acc ++ rs.filter (fun r => r.source == s) := by
  induction rs generalizing acc with
  | nil => simp
  | cons r rest ih =>
      rw [List.foldl_cons, ih, lookupG_insertGrouped, List.filter_cons]
      by_cases hrs : r.source == s
      · simp [hrs]
      · simp [hrs]

/-- The bucket of each source in `groupBySource` is exactly the subsequence of
results carrying that source. -/
theorem groupBySource_lookup (rs : List APIResult) (s : Text) :
    lookupG s (groupBySource rs) = rs.filter (fun r => r.source == s) := by
  unfold groupBySource
  rw [lookupG_foldl]
  simp [lookupG]

/-- One `insertGrouped` step adds the source as a new last key exactly when it
is not yet present. -/
theorem insertGrouped_keys (acc : List (Text × List APIResult)) (r : APIResult) :
    (insertGrouped acc r).map Prod.fst =
      if acc.any (fun p => p.1 == r.source) then acc.map Prod.fst
      else acc.map Prod.fst ++ [r.source] := by
  unfold insertGrouped
  by_cases h : acc.any (fun p => p.1 == r.source)
  · rw [if_pos h, if_pos h, List.map_map]
    refine List.map_congr_left ?_
    intro p _
    by_cases hp : p.1 == r.source <;> simp [Function.comp, hp]
  · rw [if_neg h, if_neg h]
    simp

/-- The group keys of `groupBySource` are the sources in first-seen order. -/
theorem groupBySource_keys (rs : List APIResult) :
    (groupBySource rs).map Prod.fst = firstSeen (rs.map APIResult.source) := by
  suffices h : ∀ acc, ((rs.foldl insertGrouped acc).map Prod.fst) =
      (rs.map APIResult.source).foldl
        (fun a s => if a.any (fun t => t == s) then a else a ++ [s])
        (acc.map Prod.fst) by
    simpa [groupBySource, firstSeen] using h []
  induction rs with
  | nil => intro acc; rfl
  | cons r rest ih =>
      intro acc
      rw [List.foldl_cons, ih, List.map_cons, List.foldl_cons, insertGrouped_keys]
      have hcond : (acc.map Prod.fst).any (fun t => t == r.source) =
          acc.any (fun p => p.1 == r.source) := by
        induction acc with
        | nil => rfl
        | cons p ps ihp => simp [ihp]
      rw [hcond]

/-- Claim C9: `format_for_llm` returns the literal "nothing found" string on
an empty retrieval (and, being a total function of the adapter outcomes,
never raises and performs no I/O); on a non-empty retrieval it renders the
results grouped by source — group keys in first-seen order, each source's
section holding exactly that source's results in arrival order — with every
cleaned content preview truncated to at most 200 characters plus a
three-character ellipsis. -/
theorem format_for_llm_spec (wikiCall drugCall advCall : Except Text (List APIResult))
    (q : Text) (maxPer : Nat) :
    ((search_apis wikiCall drugCall advCall q).results = [] →
      format_for_llm wikiCall drugCall advCall q maxPer =
        T "Aucune information externe trouvée pour: " ++ q)
    ∧ (groupBySource (search_apis wikiCall drugCall advCall q).results).map Prod.fst =
        firstSeen ((search_apis wikiCall drugCall advCall q).results.map APIResult.source)
    ∧ (∀ s, lookupG s (groupBySource (search_apis wikiCall drugCall advCall q).results) =
        (search_apis wikiCall drugCall advCall q).results.filter (fun r => r.source == s))
    ∧ (∀ c : Text, (cleanContentForLlm c).length ≤ 203) := by
  refine ⟨fun h => ?_, groupBySource_keys _, fun s => groupBySource_lookup _ s, fun c => ?_⟩
  · simp [format_for_llm, h]
  · unfold cleanContentForLlm
    by_cases hlen : (trimT (replaceDoubleNewline c)).length > 200
    · rw [if_pos hlen, List.length_append, List.length_take]
      have h3 : (T "...").length = 3 := rfl
      have hm := min_le_left 200 (trimT (replaceDoubleNewline c)).length
      omega
    · rw [if_neg hlen]
      omega

/-- Witness for C9 at a concrete query whose retrieval is empty. -/
theorem format_for_llm_spec_witness :
    format_for_llm (Except.ok []) (Except.ok []) (Except.ok []) (T "bonjour") 2 =
      T "Aucune information externe trouvée pour: " ++ T "bonjour" :=
  (format_for_llm_spec (Except.ok []) (Except.ok []) (Except.ok [])
    (T "bonjour") 2).1 rfl

/-- Claim C7: the adapters' search methods (`WikipediaClient.search`,
`OpenFDAClient.search_drugs`) are total functions into result lists — in the
embedding every Python exception of the body lives in the `Except` layer,
which the outer handler of each method eliminates — and every internal
failure yields the empty list: a failed HTTP call, a body ending in any
exception, a response missing the expected field (`query` / `results`), and a
response that is not an object at all. -/
theorem adapters_never_raise (chCore : Text → Nat → Text) (rmCite : Text → Text)
    (httpResult : Except Text PyVal) (q : Text) (n : Nat) :
    (∀ m, wikipedia_search chCore rmCite (Except.error m) = []
      ∧ openfda_search_drugs chCore (Except.error m) q n = [])
    ∧ (∀ e, wikipedia_search_body chCore rmCite httpResult = Except.error e →
        wikipedia_search chCore rmCite httpResult = [])
    ∧ (∀ e, openfda_search_drugs_body chCore httpResult q n = Except.error e →
        openfda_search_drugs chCore httpResult q n = [])
    ∧ (∀ kvs, (kvs.all fun kv => !(kv.1 == T "query")) = true →
        wikipedia_search chCore rmCite (Except.ok (PyVal.dict kvs)) = [])
    ∧ (∀ kvs, (kvs.all fun kv => !(kv.1 == T "results")) = true →
        openfda_search_drugs chCore (Except.ok (PyVal.dict kvs)) q n = [])
    ∧ (∀ s, wikipedia_search chCore rmCite (Except.ok (PyVal.num s)) = []
        ∧ openfda_search_drugs chCore (Except.ok (PyVal.num s)) q n = []) := by
  refine ⟨fun m => ⟨rfl, rfl⟩, fun e h => ?_, fun e h => ?_, fun kvs hall => ?_,
    fun kvs hall => ?_, fun s => ⟨rfl, rfl⟩⟩
  · unfold wikipedia_search
    rw [h]
  · unfold openfda_search_drugs
    rw [h]
  · have hany : (kvs.any fun kv => kv.1 == T "query") = false := by
      rw [List.any_eq_false]
      intro kv hkv
      simpa using List.all_eq_true.mp hall kv hkv
    simp [wikipedia_search, wikipedia_search_body, pyIn, hany]
  · have hany : (kvs.any fun kv => kv.1 == T "results") = false := by
      rw [List.any_eq_false]
      intro kv hkv
      simpa using List.all_eq_true.mp hall kv hkv
    simp [openfda_search_drugs, openfda_search_drugs_body, pyIn, hany]

/-- Witness for C7: a response object with no usable field yields the empty
list. -/
theorem adapters_never_raise_witness :
    wikipedia_search (fun s _ => s) (fun s => s) (Except.ok (PyVal.dict [])) = [] :=
  (adapters_never_raise (fun s _ => s) (fun s => s) (Except.ok (PyVal.dict []))
    (T "aspirin") 5).2.2.2.1 [] rfl
